import Mathlib

/-!
Shallow embedding of the `Drawer` trait of `src/figure/drawers/drawer.rs`
(dataviz-rs/dataviz) and of the collaborators it draws on.

The repository source available here is the drawer module only; the canvases
(`PixelCanvas`, `SvgCanvas`), the configuration (`FigureConfig`) and the
`AxisType` enum live in sibling modules that are not part of the visible
source, so those are modelled from the specification, as marked on each
definition.  The drawer's own default methods are translated directly from
the Rust source.

Machine-integer conventions: `u32` values are represented as `Nat`; Rust's
`u32::saturating_sub` coincides with truncated `Nat` subtraction for in-range
operands, while `u32::saturating_add` is modelled explicitly by clamping at
`2^32 - 1`.  The `f64` arithmetic in `fill_svg_background` only converts
`u32` values (exact in `f64`), doubles them (exact) and subtracts integers of
magnitude below `2^53` (exact), so it is modelled faithfully by `ℚ`.
`f32` font sizes are never computed with, only passed through to the font
metrics service, so they are carried as `ℚ` as well.
-/

/-- An RGB colour, the model of Rust's `[u8; 3]`: components are `Nat`s that
are meant to lie in `[0, 255]`. -/
abbrev Color := Nat × Nat × Nat

/-- Raw bytes of a font file (`Vec<u8>` from `std::fs::read`). -/
abbrev ByteData := List Nat

/-- A parsed font (`FontRef`); modelled by the bytes it was parsed from,
since the drawer only hands it on to the metrics service and the canvas. -/
abbrev Font := List Nat

/-- Model of Rust's `Display` for `u8` as used by `format!("{}", c)`:
the decimal, unpadded rendering of the byte value. -/
def u8Display (n : Nat) : String := Nat.repr (n % 256)

/-- Embedding of `Drawer::rgb_to_svg_color` (drawer.rs lines 42-44):
`format!("rgb({},{},{})", color[0], color[1], color[2])`. -/
def rgb_to_svg_color (color : Color) : String :=
  "rgb(" ++ u8Display color.1 ++ "," ++ u8Display color.2.1 ++ ","
    ++ u8Display color.2.2 ++ ")"

/-- Modelled from the spec: `FigureConfig` (its module is not in the visible
source).  Per the spec's interface list it supplies the four colours, the
grid line counts, optional font file paths for title, label and axis text,
and font point sizes for title, label and axis text.  The drawer source
reads `color_background`, `color_axis`, `color_title`, `color_grid`,
`num_grid_horizontal`, `num_grid_vertical`, `font_label`, `font_title`,
`font_size_label`, `font_size_title` and `font_size_axis`; the axis font
path field is listed by the spec but never read by the drawer. -/
structure FigureConfig where
  color_background : Color
  color_axis : Color
  color_title : Color
  color_grid : Color
  num_grid_horizontal : Nat
  num_grid_vertical : Nat
  font_label : Option String
  font_title : Option String
  font_axis : Option String
  font_size_label : ℚ
  font_size_title : ℚ
  font_size_axis : ℚ

/-- A shape record of the vector canvas.  Only rectangles are needed by the
claims; numeric fields model the `f64` parameters of `draw_rect`. -/
inductive SvgElement where
  | rect (x y w h : ℚ) (fill : String) (stroke : String)
      (stroke_width : ℚ) (opacity : ℚ)
  deriving Repr, DecidableEq

/-- Modelled from the spec: the vector canvas (`SvgCanvas`, its module is
not in the visible source): width, height and margin mirroring the raster
model, plus an ordered sequence of emitted shape records. -/
structure SvgCanvas where
  width : Nat
  height : Nat
  margin : Nat
  elements : List SvgElement

/-- Modelled from the spec: `SvgCanvas::draw_rect` appends one rectangle
record (position, size, fill colour, stroke colour, stroke width, opacity)
to the ordered shape list; shapes are appended in draw order. -/
def SvgCanvas.draw_rect (c : SvgCanvas) (x y w h : ℚ)
    (fill : String) (stroke : String) (stroke_width : ℚ) (opacity : ℚ) :
    SvgCanvas :=
  { c with elements :=
      c.elements ++ [SvgElement.rect x y w h fill stroke stroke_width opacity] }

/-- Embedding of `Drawer::fill_svg_background` (drawer.rs lines 51-67): converts margin,
width and height to `f64` (exact, modelled in `ℚ`) and emits a single
rectangle at `(margin, margin)` of size
`(width - 2 * margin, height - 2 * margin)`, filled with the configuration's
background colour, stroke `"none"`, stroke width `0`, opacity `1`. -/
def fill_svg_background (svg_canvas : SvgCanvas) (config : FigureConfig) :
    SvgCanvas :=
  let margin : ℚ := svg_canvas.margin
  let width : ℚ := svg_canvas.width
  let height : ℚ := svg_canvas.height
  let bg_color := rgb_to_svg_color config.color_background
  svg_canvas.draw_rect margin margin (width - 2 * margin)
    (height - 2 * margin) bg_color "none" 0 1

/-- A recorded invocation of the raster canvas's text rasterizer: the
anchor, the text, the colour, the font and the scale handed to
`PixelCanvas::draw_text`. -/
structure TextCall where
  x : Nat
  y : Nat
  text : String
  color : Color
  font : Font
  scale : ℚ

/-- Modelled from the spec: the raster canvas (`PixelCanvas`, its module is
not in the visible source): a width×height buffer of pixels plus a margin.
The buffer is the pixel map `(x, y) ↦ colour`; `texts` is the record of
text-rasterization invocations (the glyph compositing itself is the canvas's
private concern and is not needed by any claim, so only the invocation is
recorded). -/
structure PixelCanvas where
  width : Nat
  height : Nat
  margin : Nat
  buffer : Nat → Nat → Color
  texts : List TextCall

/-- Modelled from the spec: `PixelCanvas::draw_pixel` writes the colour at
`(x, y)`; out-of-bounds coordinates are silently clipped (no-op). -/
def PixelCanvas.draw_pixel (c : PixelCanvas) (x y : Nat) (color : Color) :
    PixelCanvas :=
  if x < c.width ∧ y < c.height then
    { c with buffer := fun i j => if i = x ∧ j = y then color else c.buffer i j }
  else c

/-- Modelled from the spec: `PixelCanvas::draw_text` rasterizes text at a
device-unit origin with the given colour, font and scale; the model records
the invocation in draw order. -/
def PixelCanvas.draw_text (c : PixelCanvas) (x y : Nat) (text : String)
    (color : Color) (font : Font) (scale : ℚ) : PixelCanvas :=
  { c with texts := c.texts ++ [⟨x, y, text, color, font, scale⟩] }

/-- The `y` iteration range of `fill_background`:
Rust's `canvas.margin..canvas.height - canvas.margin` over `u32`. -/
def rowRange (canvas : PixelCanvas) : List Nat :=
  List.range' canvas.margin (canvas.height - canvas.margin - canvas.margin)

/-- The `x` iteration range of `fill_background`:
Rust's `canvas.margin..canvas.width - canvas.margin` over `u32`. -/
def colRange (canvas : PixelCanvas) : List Nat :=
  List.range' canvas.margin (canvas.width - canvas.margin - canvas.margin)

/-- Embedding of `Drawer::fill_background` (drawer.rs lines 74-80): for every `y` in
`margin..height - margin` and every `x` in `margin..width - margin`, write
the configuration's background colour at `(x, y)`. -/
def fill_background (canvas : PixelCanvas) (config : FigureConfig) :
    PixelCanvas :=
  (rowRange canvas).foldl
    (fun c y =>
      (colRange canvas).foldl
        (fun c2 x => c2.draw_pixel x y config.color_background) c)
    canvas

/-- Rust `u32::saturating_sub` on in-range operands: truncated `Nat`
subtraction, i.e. `max 0 (a - b)` over the integers. -/
def satSub (a b : Nat) : Nat := a - b

/-- Rust `u32::saturating_add`: the sum clamped at `u32::MAX = 2^32 - 1`. -/
def satAdd32 (a b : Nat) : Nat := min (a + b) (2 ^ 32 - 1)

/-- Embedding of `Drawer::draw_label` (drawer.rs lines 120-146).  `fs` models
`std::fs::read` (`none` = the read panics), `parse` models
`FontRef::try_from_slice` (`none` = parse failure, `unwrap` panics),
`measure` models `imageproc::drawing::text_size` at a `PxScale` with equal
`x`/`y` components.  A panic is returned as `(canvas, some msg)` with the
canvas exactly as it was when the panic fired. -/
def draw_label (fs : String → Option ByteData) (parse : ByteData → Option Font)
    (measure : ℚ → Font → String → Nat × Nat)
    (canvas : PixelCanvas) (config : FigureConfig) (x y : Nat)
    (text : String) : PixelCanvas × Option String :=
  match config.font_label with
  | none => (canvas, some "Font path is not set")
  | some font_path =>
    match fs font_path with
    | none => (canvas, some "Failed to read font file")
    | some font_bytes =>
      match parse font_bytes with
      | none => (canvas, some "FontRef::try_from_slice failed")
      | some font =>
        let scale := config.font_size_label
        let w := (measure scale font text).1
        let h := (measure scale font text).2
        (canvas.draw_text (satSub x (w / 2)) (satSub y (h / 2)) text
          config.color_axis font scale, none)

/-- Embedding of `Drawer::draw_title` (drawer.rs lines 155-181): same centering as
`draw_label`, but loading `font_title`, scaling with `font_size_title` and
drawing with `color_title`. -/
def draw_title (fs : String → Option ByteData) (parse : ByteData → Option Font)
    (measure : ℚ → Font → String → Nat × Nat)
    (canvas : PixelCanvas) (config : FigureConfig) (x y : Nat)
    (text : String) : PixelCanvas × Option String :=
  match config.font_title with
  | none => (canvas, some "Font path is not set")
  | some font_path =>
    match fs font_path with
    | none => (canvas, some "Failed to read font file")
    | some font_bytes =>
      match parse font_bytes with
      | none => (canvas, some "FontRef::try_from_slice failed")
      | some font =>
        let scale := config.font_size_title
        let w := (measure scale font text).1
        let h := (measure scale font text).2
        (canvas.draw_text (satSub x (w / 2)) (satSub y (h / 2)) text
          config.color_title font scale, none)

/-- Modelled from the spec: `AxisType` enum (its module is not in the
visible source); `AxisX` is the spec's Horizontal, `AxisY` Vertical. -/
inductive AxisType where
  | AxisX
  | AxisY
  deriving Repr, DecidableEq

/-- Embedding of `Drawer::draw_axis_value` (drawer.rs lines 191-223): loads
`font_label`, scales with `font_size_axis`, measures the text, then anchors
`AxisX` labels at `(x.saturating_sub(w / 2), y.saturating_add(h))` and
`AxisY` labels at `(x.saturating_sub(w), y.saturating_sub(h / 2))`, and
draws with `color_axis`. -/
def draw_axis_value (fs : String → Option ByteData)
    (parse : ByteData → Option Font)
    (measure : ℚ → Font → String → Nat × Nat)
    (canvas : PixelCanvas) (config : FigureConfig) (x y : Nat)
    (text : String) (axis : AxisType) : PixelCanvas × Option String :=
  match config.font_label with
  | none => (canvas, some "Font path is not set")
  | some font_path =>
    match fs font_path with
    | none => (canvas, some "Failed to read font file")
    | some font_bytes =>
      match parse font_bytes with
      | none => (canvas, some "FontRef::try_from_slice failed")
      | some font =>
        let scale := config.font_size_axis
        let w := (measure scale font text).1
        let h := (measure scale font text).2
        match axis with
        | AxisType.AxisX =>
          (canvas.draw_text (satSub x (w / 2)) (satAdd32 y h) text
            config.color_axis font scale, none)
        | AxisType.AxisY =>
          (canvas.draw_text (satSub x w) (satSub y (h / 2)) text
            config.color_axis font scale, none)

/-- A decimal string with no padding: nonempty, all digits, and no leading
zero unless the string is exactly "0". -/
def unpaddedDecimal (s : String) : Bool :=
  decide (s ≠ "") && s.data.all Char.isDigit
    && (decide (s.front ≠ '0') || decide (s = "0"))

/-- Concrete file system for witnesses: every path reads to byte `[0]`. -/
def fsW : String → Option ByteData := fun _ => some [0]

/-- Concrete font parser for witnesses: parsing always succeeds and the
font is its bytes. -/
def parseW : ByteData → Option Font := fun b => some b

/-- The font `parseW` produces from `fsW`'s bytes. -/
def fontW : Font := [0]

/-- Concrete metrics service for witnesses: every text measures 40×10. -/
def measW : ℚ → Font → String → Nat × Nat := fun _ _ _ => (40, 10)

/-- Concrete metrics service for the `draw_axis_value` saturation
counterexample: every text measures 0×1. -/
def measC4 : ℚ → Font → String → Nat × Nat := fun _ _ _ => (0, 1)

/-- Concrete configuration for witnesses. -/
def cfgW : FigureConfig :=
  { color_background := (255, 255, 255)
    color_axis := (10, 20, 30)
    color_title := (40, 50, 60)
    color_grid := (70, 80, 90)
    num_grid_horizontal := 5
    num_grid_vertical := 6
    font_label := some "label.ttf"
    font_title := some "title.ttf"
    font_axis := none
    font_size_label := 12
    font_size_title := 14
    font_size_axis := 10 }

/-- Configuration `cfgW` with the title font path removed. -/
def cfgNoTitle : FigureConfig := { cfgW with font_title := none }

/-- Configuration `cfgW` with the label font path removed. -/
def cfgNoLabel : FigureConfig := { cfgW with font_label := none }

/-- Concrete 200×200 raster canvas with margin 20, all pixels black. -/
def cvRaster : PixelCanvas :=
  { width := 200, height := 200, margin := 20
    buffer := fun _ _ => (0, 0, 0), texts := [] }


/-- Writing a pixel never changes the canvas width. -/
theorem draw_pixel_width (c : PixelCanvas) (x y : Nat) (col : Color) :
    (c.draw_pixel x y col).width = c.width := by
  unfold PixelCanvas.draw_pixel
  split <;> rfl

/-- Writing a pixel never changes the canvas height. -/
theorem draw_pixel_height (c : PixelCanvas) (x y : Nat) (col : Color) :
    (c.draw_pixel x y col).height = c.height := by
  unfold PixelCanvas.draw_pixel
  split <;> rfl

/-- The pixel map after one `draw_pixel`. -/
theorem draw_pixel_buffer (c : PixelCanvas) (x y : Nat) (col : Color)
    (i j : Nat) :
    (c.draw_pixel x y col).buffer i j =
      if (i = x ∧ j = y) ∧ x < c.width ∧ y < c.height then col
      else c.buffer i j := by
  unfold PixelCanvas.draw_pixel
  by_cases hb : x < c.width ∧ y < c.height
  · rw [if_pos hb]
    by_cases hij : i = x ∧ j = y
    · simp [hij, hb]
    · simp only []
      rw [if_neg hij, if_neg (by tauto)]
  · rw [if_neg hb, if_neg (by tauto)]

/-- A row of `draw_pixel` writes never changes the canvas width. -/
theorem foldl_draw_pixel_width (col : Color) (y : Nat) (xs : List Nat)
    (c : PixelCanvas) :
    (xs.foldl (fun c2 x => c2.draw_pixel x y col) c).width = c.width := by
  induction xs generalizing c with
  | nil => rfl
  | cons a xs ih => rw [List.foldl_cons, ih, draw_pixel_width]

/-- A row of `draw_pixel` writes never changes the canvas height. -/
theorem foldl_draw_pixel_height (col : Color) (y : Nat) (xs : List Nat)
    (c : PixelCanvas) :
    (xs.foldl (fun c2 x => c2.draw_pixel x y col) c).height = c.height := by
  induction xs generalizing c with
  | nil => rfl
  | cons a xs ih => rw [List.foldl_cons, ih, draw_pixel_height]

/-- The pixel map after writing colour `col` at `(x, y)` for every `x` in
`xs`: an in-bounds pixel of row `y` whose abscissa occurs in `xs` now holds
`col`; every other pixel is untouched. -/
theorem foldl_draw_pixel_buffer (col : Color) (y : Nat) (xs : List Nat)
    (c : PixelCanvas) (i j : Nat) :
    (xs.foldl (fun c2 x => c2.draw_pixel x y col) c).buffer i j =
      if i ∈ xs ∧ i < c.width ∧ y < c.height ∧ j = y then col
      else c.buffer i j := by
  induction xs generalizing c with
  | nil => simp
  | cons a xs ih =>
    rw [List.foldl_cons, ih, draw_pixel_width, draw_pixel_height,
      draw_pixel_buffer]
    simp only [List.mem_cons]
    by_cases hC : (i = a ∨ i ∈ xs) ∧ i < c.width ∧ y < c.height ∧ j = y
    · rw [if_pos hC]
      obtain ⟨hia, hiw, hyh, hjy⟩ := hC
      by_cases hx : i ∈ xs
      · rw [if_pos ⟨hx, hiw, hyh, hjy⟩]
      · have hia' : i = a := hia.resolve_right hx
        rw [if_neg (by tauto),
          if_pos ⟨⟨hia', hjy⟩, by rw [← hia']; exact hiw, hyh⟩]
    · rw [if_neg hC, if_neg (fun h => hC ⟨Or.inr h.1, h.2⟩),
        if_neg (fun h => hC ⟨Or.inl h.1.1,
          by rw [h.1.1]; exact h.2.1, h.2.2, h.1.2⟩)]

/-- The pixel map after the full nested fill: a pixel changes exactly when
its row is in `ys`, its column in `xs`, and it is in bounds. -/
theorem foldl_fill_buffer (col : Color) (xs ys : List Nat)
    (c : PixelCanvas) (i j : Nat) :
    (ys.foldl
        (fun cc y => xs.foldl (fun c2 x => c2.draw_pixel x y col) cc)
        c).buffer i j =
      if j ∈ ys ∧ i ∈ xs ∧ i < c.width ∧ j < c.height then col
      else c.buffer i j := by
  induction ys generalizing c with
  | nil => simp
  | cons b ys ih =>
    rw [List.foldl_cons, ih, foldl_draw_pixel_width, foldl_draw_pixel_height,
      foldl_draw_pixel_buffer]
    simp only [List.mem_cons]
    by_cases hC : (j = b ∨ j ∈ ys) ∧ i ∈ xs ∧ i < c.width ∧ j < c.height
    · rw [if_pos hC]
      obtain ⟨hjb, hx, hw, hh⟩ := hC
      by_cases hy : j ∈ ys
      · rw [if_pos ⟨hy, hx, hw, hh⟩]
      · have hjb' : j = b := hjb.resolve_right hy
        rw [if_neg (by tauto),
          if_pos ⟨hx, hw, by rw [← hjb']; exact hh, hjb'⟩]
    · rw [if_neg hC, if_neg (fun h => hC ⟨Or.inr h.1, h.2⟩),
        if_neg (fun h => hC ⟨Or.inl h.2.2.2, h.1, h.2.1,
          by rw [h.2.2.2]; exact h.2.2.1⟩)]

/-- C1: for every raster canvas and configuration, `fill_background` sets
every pixel with `margin ≤ x < width - margin` and
`margin ≤ y < height - margin` to the configuration's background colour. -/
theorem fill_background_sets_interior (canvas : PixelCanvas)
    (config : FigureConfig) (x y : Nat)
    (hx1 : canvas.margin ≤ x) (hx2 : x < canvas.width - canvas.margin)
    (hy1 : canvas.margin ≤ y) (hy2 : y < canvas.height - canvas.margin) :
    (fill_background canvas config).buffer x y = config.color_background := by
  have hy : y ∈ rowRange canvas := by
    simp only [rowRange, List.mem_range'_1]
    omega
  have hx : x ∈ colRange canvas := by
    simp only [colRange, List.mem_range'_1]
    omega
  unfold fill_background
  rw [foldl_fill_buffer, if_pos ⟨hy, hx, by omega, by omega⟩]

/-- Witness for C1: on a 200×200 canvas with margin 20 and background
colour (255, 255, 255), pixel (100, 100) is the background colour after
the fill. -/
theorem fill_background_sets_interior_witness :
    (fill_background cvRaster cfgW).buffer 100 100 = (255, 255, 255) :=
  fill_background_sets_interior cvRaster cfgW 100 100 (by decide) (by decide)
    (by decide) (by decide)

/-- C2: `fill_background` leaves every pixel with `x < margin`,
`x ≥ width - margin`, `y < margin`, or `y ≥ height - margin` unchanged. -/
theorem fill_background_preserves_margin (canvas : PixelCanvas)
    (config : FigureConfig) (x y : Nat)
    (h : x < canvas.margin ∨ canvas.width - canvas.margin ≤ x ∨
      y < canvas.margin ∨ canvas.height - canvas.margin ≤ y) :
    (fill_background canvas config).buffer x y = canvas.buffer x y := by
  unfold fill_background
  rw [foldl_fill_buffer, if_neg ?hneg]
  case hneg =>
    rintro ⟨hy, hx, -, -⟩
    simp only [rowRange, List.mem_range'_1] at hy
    simp only [colRange, List.mem_range'_1] at hx
    omega

/-- Witness for C2: on the 200×200 canvas with margin 20, pixel (19, 19)
keeps its initial value after the fill. -/
theorem fill_background_preserves_margin_witness :
    (fill_background cvRaster cfgW).buffer 19 19 = cvRaster.buffer 19 19 :=
  fill_background_preserves_margin cvRaster cfgW 19 19 (by decide)

/-- C8: under the precondition `margin < width / 2` and
`margin < height / 2`, the subtractions `width - margin` and
`height - margin` in `fill_background` do not underflow (`margin` is below
both bounds), both fill ranges are non-empty, and the bounds are in the
right order on both axes. -/
theorem fill_background_range_wellformed (canvas : PixelCanvas)
    (hw : canvas.margin < canvas.width / 2)
    (hh : canvas.margin < canvas.height / 2) :
    canvas.margin ≤ canvas.width ∧
    canvas.margin < canvas.width - canvas.margin ∧
    colRange canvas ≠ [] ∧
    canvas.margin ≤ canvas.height ∧
    canvas.margin < canvas.height - canvas.margin ∧
    rowRange canvas ≠ [] := by
  refine ⟨by omega, by omega, ?_, by omega, by omega, ?_⟩
  · simp only [colRange, ne_eq, List.range'_eq_nil]
    omega
  · simp only [rowRange, ne_eq, List.range'_eq_nil]
    omega

/-- Witness for C8: the 200×200 canvas with margin 20 satisfies the
precondition and hence has well-formed, non-empty fill ranges. -/
theorem fill_background_range_wellformed_witness :
    cvRaster.margin ≤ cvRaster.width ∧
    cvRaster.margin < cvRaster.width - cvRaster.margin ∧
    colRange cvRaster ≠ [] ∧
    cvRaster.margin ≤ cvRaster.height ∧
    cvRaster.margin < cvRaster.height - cvRaster.margin ∧
    rowRange cvRaster ≠ [] :=
  fill_background_range_wellformed cvRaster (by decide) (by decide)

set_option maxRecDepth 10000 in
/-- C5: for every colour triple with components in [0, 255],
`rgb_to_svg_color` returns exactly the string `rgb(r,g,b)` with decimal
unpadded components.  Purity (no side effects, identical output on repeated
calls) is by construction: the embedding is a plain function of its
argument, mirroring the Rust source, whose body only formats its input. -/
theorem rgb_to_svg_color_format (r g b : Nat)
    (hr : r ≤ 255) (hg : g ≤ 255) (hb : b ≤ 255) :
    rgb_to_svg_color (r, g, b) =
      "rgb(" ++ Nat.repr r ++ "," ++ Nat.repr g ++ ","
        ++ Nat.repr b ++ ")" ∧
    unpaddedDecimal (Nat.repr r) = true ∧
    unpaddedDecimal (Nat.repr g) = true ∧
    unpaddedDecimal (Nat.repr b) = true := by
  have key : ∀ n : Nat, n < 256 → unpaddedDecimal (Nat.repr n) = true := by
    decide
  refine ⟨?_, key r (by omega), key g (by omega), key b (by omega)⟩
  simp only [rgb_to_svg_color, u8Display]
  rw [Nat.mod_eq_of_lt (by omega), Nat.mod_eq_of_lt (by omega),
    Nat.mod_eq_of_lt (by omega)]

/-- Witness for C5 at the colour (255, 0, 17). -/
theorem rgb_to_svg_color_format_witness :
    rgb_to_svg_color (255, 0, 17) =
      "rgb(" ++ Nat.repr 255 ++ "," ++ Nat.repr 0 ++ ","
        ++ Nat.repr 17 ++ ")" ∧
    unpaddedDecimal (Nat.repr 255) = true ∧
    unpaddedDecimal (Nat.repr 0) = true ∧
    unpaddedDecimal (Nat.repr 17) = true :=
  rgb_to_svg_color_format 255 0 17 (by decide) (by decide) (by decide)

/-- C6: when the title font path is absent, `draw_title` fails fatally with
the panic message of the `expect` call, and the returned canvas is exactly
the pre-call canvas: the failure fires before any canvas operation. -/
theorem draw_title_missing_font_fatal (fs : String → Option ByteData)
    (parse : ByteData → Option Font)
    (measure : ℚ → Font → String → Nat × Nat)
    (canvas : PixelCanvas) (config : FigureConfig) (x y : Nat)
    (text : String) (h : config.font_title = none) :
    draw_title fs parse measure canvas config x y text =
      (canvas, some "Font path is not set") := by
  simp [draw_title, h]

/-- Witness for C6: the concrete configuration without a title font makes
`draw_title` fail fatally and return the untouched canvas. -/
theorem draw_title_missing_font_fatal_witness :
    draw_title fsW parseW measW cvRaster cfgNoTitle 1 2 "t" =
      (cvRaster, some "Font path is not set") :=
  draw_title_missing_font_fatal fsW parseW measW cvRaster cfgNoTitle 1 2 "t"
    rfl

/-- C7: `fill_svg_background` appends exactly one rectangle record, at
position (margin, margin) with size (width - 2·margin, height - 2·margin),
filled with the configuration's background colour, stroke `"none"`, stroke
width 0 and opacity 1, and changes nothing else about the canvas. -/
theorem fill_svg_background_single_rect (svg_canvas : SvgCanvas)
    (config : FigureConfig) :
    (fill_svg_background svg_canvas config).elements =
      svg_canvas.elements ++
        [SvgElement.rect svg_canvas.margin svg_canvas.margin
          ((svg_canvas.width : ℚ) - 2 * svg_canvas.margin)
          ((svg_canvas.height : ℚ) - 2 * svg_canvas.margin)
          (rgb_to_svg_color config.color_background) "none" 0 1] ∧
    (fill_svg_background svg_canvas config).width = svg_canvas.width ∧
    (fill_svg_background svg_canvas config).height = svg_canvas.height ∧
    (fill_svg_background svg_canvas config).margin = svg_canvas.margin :=
  ⟨rfl, rfl, rfl, rfl⟩

/-- C3: with resolvable label and title fonts, `draw_label` and `draw_title`
pass the anchor `(x.saturating_sub(w/2), y.saturating_sub(h/2))` to the
canvas text draw, where `(w, h)` is the text's measured size at the
configured scale; over the integers that anchor is exactly
`(max 0 (x - w/2), max 0 (y - h/2))` (clamp-at-zero subtraction). -/
theorem draw_label_title_center_anchor
    (fs : String → Option ByteData) (parse : ByteData → Option Font)
    (measure : ℚ → Font → String → Nat × Nat)
    (canvas : PixelCanvas) (config : FigureConfig) (x y : Nat)
    (text : String)
    (pl : String) (bl : ByteData) (fl : Font)
    (hpl : config.font_label = some pl) (hbl : fs pl = some bl)
    (hfl : parse bl = some fl)
    (pt : String) (bt : ByteData) (ft : Font)
    (hpt : config.font_title = some pt) (hbt : fs pt = some bt)
    (hft : parse bt = some ft) :
    (draw_label fs parse measure canvas config x y text =
      (canvas.draw_text
        (satSub x ((measure config.font_size_label fl text).1 / 2))
        (satSub y ((measure config.font_size_label fl text).2 / 2))
        text config.color_axis fl config.font_size_label, none)) ∧
    (draw_title fs parse measure canvas config x y text =
      (canvas.draw_text
        (satSub x ((measure config.font_size_title ft text).1 / 2))
        (satSub y ((measure config.font_size_title ft text).2 / 2))
        text config.color_title ft config.font_size_title, none)) ∧
    (∀ a b : Nat, (satSub a b : ℤ) = max 0 ((a : ℤ) - b)) := by
  refine ⟨?_, ?_, ?_⟩
  · simp [draw_label, hpl, hbl, hfl]
  · simp [draw_title, hpt, hbt, hft]
  · intro a b
    simp only [satSub]
    omega

/-- Witness for C3: point (100, 50) with measured size (40, 10) yields the
anchor (80, 45) for `draw_label`. -/
theorem draw_label_title_center_anchor_witness :
    draw_label fsW parseW measW cvRaster cfgW 100 50 "v" =
      (cvRaster.draw_text 80 45 "v" cfgW.color_axis fontW
        cfgW.font_size_label, none) :=
  (draw_label_title_center_anchor fsW parseW measW cvRaster cfgW 100 50 "v"
    "label.ttf" [0] [0] rfl rfl rfl "title.ttf" [0] [0] rfl rfl rfl).1

/-- Counterexample to C4 as stated: at the point `(0, 2^32 - 1)` with a
text measuring `(0, 1)`, the Horizontal (`AxisX`) anchor's `y` passed to the
canvas is `2^32 - 1` (the `u32` saturating sum), not `y + h = 2^32` as the
claim requires. -/
theorem draw_axis_value_claim_counterexample :
    ((draw_axis_value fsW parseW measC4 cvRaster cfgW 0 (2 ^ 32 - 1) "0"
        AxisType.AxisX).1.texts.getLast?).map TextCall.y =
      some (2 ^ 32 - 1) ∧
    (2 ^ 32 - 1 : Nat) ≠ (2 ^ 32 - 1) + 1 := by
  constructor
  · decide
  · omega

/-- C4 amended: with a resolvable label font, `draw_axis_value` anchors
Horizontal (`AxisX`) tick labels at
`(x.saturating_sub(w/2), y.saturating_add(h))` — over the integers
`(max 0 (x - w/2), min (y + h) (2^32 - 1))`, which equals the claim's
`(max 0 (x - w/2), y + h)` whenever `y + h < 2^32` — and Vertical (`AxisY`)
tick labels at `(x.saturating_sub(w), y.saturating_sub(h/2))`, i.e.
`(max 0 (x - w), max 0 (y - h/2))`, before drawing the text. -/
theorem draw_axis_value_anchor
    (fs : String → Option ByteData) (parse : ByteData → Option Font)
    (measure : ℚ → Font → String → Nat × Nat)
    (canvas : PixelCanvas) (config : FigureConfig) (x y : Nat)
    (text : String)
    (pl : String) (bl : ByteData) (fl : Font)
    (hpl : config.font_label = some pl) (hbl : fs pl = some bl)
    (hfl : parse bl = some fl) :
    (draw_axis_value fs parse measure canvas config x y text
        AxisType.AxisX =
      (canvas.draw_text
        (satSub x ((measure config.font_size_axis fl text).1 / 2))
        (satAdd32 y ((measure config.font_size_axis fl text).2))
        text config.color_axis fl config.font_size_axis, none)) ∧
    (draw_axis_value fs parse measure canvas config x y text
        AxisType.AxisY =
      (canvas.draw_text
        (satSub x ((measure config.font_size_axis fl text).1))
        (satSub y ((measure config.font_size_axis fl text).2 / 2))
        text config.color_axis fl config.font_size_axis, none)) ∧
    (∀ a b : Nat, (satSub a b : ℤ) = max 0 ((a : ℤ) - b)) ∧
    (∀ a b : Nat, (satAdd32 a b : ℤ) = min ((a : ℤ) + b) (2 ^ 32 - 1)) ∧
    (∀ a b : Nat, a + b < 2 ^ 32 → satAdd32 a b = a + b) := by
  refine ⟨?_, ?_, ?_, ?_, ?_⟩
  · simp [draw_axis_value, hpl, hbl, hfl]
  · simp [draw_axis_value, hpl, hbl, hfl]
  · intro a b
    simp only [satSub]
    omega
  · intro a b
    simp only [satAdd32]
    omega
  · intro a b hab
    simp only [satAdd32]
    omega

/-- Witness for the amended C4: point (100, 50), measured size (40, 10):
the `AxisX` anchor is (80, 60) and the `AxisY` anchor is (60, 45). -/
theorem draw_axis_value_anchor_witness :
    (draw_axis_value fsW parseW measW cvRaster cfgW 100 50 "v"
        AxisType.AxisX =
      (cvRaster.draw_text 80 60 "v" cfgW.color_axis fontW
        cfgW.font_size_axis, none)) ∧
    (draw_axis_value fsW parseW measW cvRaster cfgW 100 50 "v"
        AxisType.AxisY =
      (cvRaster.draw_text 60 45 "v" cfgW.color_axis fontW
        cfgW.font_size_axis, none)) := by
  have h := draw_axis_value_anchor fsW parseW measW cvRaster cfgW 100 50 "v"
    "label.ttf" [0] [0] rfl rfl rfl
  exact ⟨h.1, h.2.1⟩

/-- C9: with resolvable fonts, `draw_label` and `draw_axis_value` pass the
configuration's axis colour (`color_axis`) as the text colour to the canvas
(for both axis orientations), while `draw_title` passes the distinct title
colour (`color_title`). -/
theorem text_color_from_config
    (fs : String → Option ByteData) (parse : ByteData → Option Font)
    (measure : ℚ → Font → String → Nat × Nat)
    (canvas : PixelCanvas) (config : FigureConfig) (x y : Nat)
    (text : String)
    (pl : String) (bl : ByteData) (fl : Font)
    (hpl : config.font_label = some pl) (hbl : fs pl = some bl)
    (hfl : parse bl = some fl)
    (pt : String) (bt : ByteData) (ft : Font)
    (hpt : config.font_title = some pt) (hbt : fs pt = some bt)
    (hft : parse bt = some ft) :
    (((draw_label fs parse measure canvas config x y
        text).1.texts.getLast?).map TextCall.color =
      some config.color_axis) ∧
    (∀ axis, ((draw_axis_value fs parse measure canvas config x y text
        axis).1.texts.getLast?).map TextCall.color =
      some config.color_axis) ∧
    (((draw_title fs parse measure canvas config x y
        text).1.texts.getLast?).map TextCall.color =
      some config.color_title) := by
  refine ⟨?_, fun axis => ?_, ?_⟩
  · simp [draw_label, hpl, hbl, hfl, PixelCanvas.draw_text]
  · cases axis <;>
      simp [draw_axis_value, hpl, hbl, hfl, PixelCanvas.draw_text]
  · simp [draw_title, hpt, hbt, hft, PixelCanvas.draw_text]

/-- Witness for C9 with the concrete configuration: the label and tick
label draw with `color_axis`, the title with `color_title`. -/
theorem text_color_from_config_witness :
    (((draw_label fsW parseW measW cvRaster cfgW 3 4
        "v").1.texts.getLast?).map TextCall.color =
      some cfgW.color_axis) ∧
    (∀ axis, ((draw_axis_value fsW parseW measW cvRaster cfgW 3 4 "v"
        axis).1.texts.getLast?).map TextCall.color =
      some cfgW.color_axis) ∧
    (((draw_title fsW parseW measW cvRaster cfgW 3 4
        "v").1.texts.getLast?).map TextCall.color =
      some cfgW.color_title) :=
  text_color_from_config fsW parseW measW cvRaster cfgW 3 4 "v"
    "label.ttf" [0] [0] rfl rfl rfl "title.ttf" [0] [0] rfl rfl rfl

/-- C10: `draw_axis_value` loads the label font path (`font_label`) while
scaling with the axis font size (`font_size_axis`): when the file system
and font parser succeed on every input, it fails fatally exactly when
`font_label` is absent; the axis font path field plays no role at all; and
on success the recorded text call carries the font parsed from the label
path and the scale `font_size_axis`. -/
theorem draw_axis_value_uses_label_font
    (fs : String → Option ByteData) (parse : ByteData → Option Font)
    (measure : ℚ → Font → String → Nat × Nat)
    (canvas : PixelCanvas) (config : FigureConfig) (x y : Nat)
    (text : String) (axis : AxisType)
    (hfs : ∀ p, (fs p).isSome) (hparse : ∀ b, (parse b).isSome) :
    ((draw_axis_value fs parse measure canvas config x y text
        axis).2.isSome ↔ config.font_label = none) ∧
    (∀ fa, draw_axis_value fs parse measure canvas
        { config with font_axis := fa } x y text axis =
      draw_axis_value fs parse measure canvas config x y text axis) ∧
    (∀ pl bl fl, config.font_label = some pl → fs pl = some bl →
      parse bl = some fl →
      ((draw_axis_value fs parse measure canvas config x y text
          axis).1.texts.getLast?).map TextCall.font = some fl ∧
      ((draw_axis_value fs parse measure canvas config x y text
          axis).1.texts.getLast?).map TextCall.scale =
        some config.font_size_axis) := by
  refine ⟨?_, ?_, ?_⟩
  · cases hl : config.font_label with
    | none => simp [draw_axis_value, hl]
    | some p =>
      obtain ⟨b, hb⟩ := Option.isSome_iff_exists.mp (hfs p)
      obtain ⟨f, hf⟩ := Option.isSome_iff_exists.mp (hparse b)
      cases axis <;> simp [draw_axis_value, hl, hb, hf]
  · intro fa
    cases config
    rfl
  · intro pl bl fl hpl hbl hfl
    cases axis <;>
      simp [draw_axis_value, hpl, hbl, hfl, PixelCanvas.draw_text]

/-- Witness for C10: with a total file system and parser and the label
font path removed, `draw_axis_value` fails fatally; the axis font field is
irrelevant; and the success clause holds vacuously. -/
theorem draw_axis_value_uses_label_font_witness :
    ((draw_axis_value fsW parseW measW cvRaster cfgNoLabel 3 4 "v"
        AxisType.AxisX).2.isSome ↔ cfgNoLabel.font_label = none) ∧
    (∀ fa, draw_axis_value fsW parseW measW cvRaster
        { cfgNoLabel with font_axis := fa } 3 4 "v" AxisType.AxisX =
      draw_axis_value fsW parseW measW cvRaster cfgNoLabel 3 4 "v"
        AxisType.AxisX) ∧
    (∀ pl bl fl, cfgNoLabel.font_label = some pl → fsW pl = some bl →
      parseW bl = some fl →
      ((draw_axis_value fsW parseW measW cvRaster cfgNoLabel 3 4 "v"
          AxisType.AxisX).1.texts.getLast?).map TextCall.font = some fl ∧
      ((draw_axis_value fsW parseW measW cvRaster cfgNoLabel 3 4 "v"
          AxisType.AxisX).1.texts.getLast?).map TextCall.scale =
        some cfgNoLabel.font_size_axis) :=
  draw_axis_value_uses_label_font fsW parseW measW cvRaster cfgNoLabel 3 4
    "v" AxisType.AxisX (fun _ => rfl) (fun _ => rfl)
